import Mathlib

/-!
# maxreport: configuration resolution, validation and report dispatch

A shallow embedding of `tools/maxreport/report.go`.  The program keeps its
configuration in the package-level variable `config`; `init` parses the command
line and runs the selected command's action (which calls `globals`), and `main`
then dispatches to one of the report flows.

The embedding threads an explicit `State` (the global `config`, the global
`maxcdn.APIHost`, and a log of the effects performed so far) through a small
result monad `Proc` in which `os.Exit` and `panic` stop the run.  Everything the
program obtains from outside (environment, file system, YAML decoder, the API
client and the response mappers) is a field of `World`.

Go strings are byte strings; they are represented by Lean strings, which agrees
with Go on every valid UTF-8 input for the operations used here.
-/

namespace MaxReport

/-! ## Data model -/

/-- The `Config` struct (report.go, lines 290-300). `Top` is a Go `int`. -/
structure Config where
  Host : String := ""
  Alias : String := ""
  Token : String := ""
  Secret : String := ""
  From : String := ""
  To : String := ""
  Top : Int := 0
  Verbose : Bool := false
  Report : String := ""
  ReportType : String := ""
  deriving DecidableEq

/-- The type `url.Values` (`map[string][]string`), as an association list. -/
abbrev Values := List (String × List String)

/-- The method `url.Values.Set`: the key now maps to the single given value. -/
def Values.Set (v : Values) (key value : String) : Values :=
  v.filter (fun p => p.1 != key) ++ [(key, [value])]

/-- Modelled from the spec: the client value built by `maxcdn.NewMaxCDN(alias, token, secret)`,
whose package is not part of the sources at hand; `Verbose` is the field `main` assigns. -/
structure MaxCDN where
  Alias : String
  Token : String
  Secret : String
  Verbose : Bool := false
  deriving DecidableEq

/-- Modelled from the spec: the record `mappers.SummaryStats.Data.Stats`,
`SummaryStats{Hit, CacheHit, NoncacheHit, Size}`, all printed with `%s`. -/
structure SummaryStat where
  Hit : String := ""
  CacheHit : String := ""
  NoncacheHit : String := ""
  Size : String := ""
  deriving DecidableEq

/-- Modelled from the spec: an element of `mappers.MultiStats.Data.Stats`,
`(Timestamp, Hit, CacheHit, NoncacheHit, Size)`. -/
structure MultiStat where
  Timestamp : String := ""
  Hit : String := ""
  CacheHit : String := ""
  NoncacheHit : String := ""
  Size : String := ""
  deriving DecidableEq

/-- Modelled from the spec: an element of `mappers.PopularFiles.Data.Popularfiles`, `(Hit, Uri)`. -/
structure PopularFile where
  Hit : String := ""
  Uri : String := ""
  deriving DecidableEq

/-- What the program obtains from its surroundings. Errors are `some msg`, as Go's
non-nil `error`. -/
structure World where
  /-- The function `os.Getenv`: the empty string for an unset variable. -/
  getenv : String → String
  /-- The function `ioutil.ReadFile`: `none` when the read fails. -/
  readFile : String → Option String
  /-- The function `yaml.Unmarshal(data, &c)`: the struct after decoding, and the error. -/
  unmarshal : String → Config → Config × Option String
  /-- Parsing and executing the help template in `helpPrinter`: the text, or the error. -/
  renderHelp : Except String String
  /-- The initial value of the package variable `maxcdn.APIHost`. -/
  defaultAPIHost : String
  /-- The constant `mappers.StatsEndpoint`. -/
  StatsEndpoint : String
  /-- The constant `mappers.PopularFilesEndpoint`. -/
  PopularFilesEndpoint : String
  /-- The method `max.Do(method, endpoint, form)` under the current `maxcdn.APIHost`
  (second argument): the raw response and the error. -/
  Do : MaxCDN → String → String → String → Values → String × Option String
  /-- The method `Parse` of a zero `mappers.SummaryStats`: `mapper.Data.Stats` afterwards, and the error. -/
  parseSummary : String → SummaryStat × Option String
  /-- The method `Parse` of a zero `mappers.MultiStats`: `mapper.Data.Stats` afterwards, and the error. -/
  parseMulti : String → List MultiStat × Option String
  /-- The method `Parse` of a zero `mappers.PopularFiles`: `mapper.Data.Popularfiles` afterwards, and the error. -/
  parsePopular : String → List PopularFile × Option String

/-! ## Effects, state and the result monad -/

/-- An observable action of the process. -/
inductive Effect where
  /-- One call of `fmt.Printf` / `fmt.Println` (or the help text), with the text written. -/
  | stdout (text : String)
  /-- One call of `ioutil.ReadFile` with the path passed. -/
  | readFile (path : String)
  /-- One call of `max.Do` with its method, endpoint and form. -/
  | request (method endpoint : String) (form : Values)
  deriving DecidableEq

/-- How a run stops early: `os.Exit(code)` or `panic(err)`. -/
inductive Halt where
  | exit (code : Nat)
  | panic (err : String)
  deriving DecidableEq

/-- The package-level variables and the effects performed so far (oldest first). -/
structure State where
  config : Config := {}
  APIHost : String := ""
  log : List Effect := []
  deriving DecidableEq

/-- Result of running a piece of the program from some state. -/
inductive Res (α : Type) where
  | ok (a : α) (s : State)
  | halt (h : Halt) (s : State)

/-- The state a run ended in, whether it returned or stopped. -/
def Res.state {α : Type} : Res α → State
  | .ok _ s => s
  | .halt _ s => s

/-- The way the run stopped, `none` when it returned normally. -/
def Res.halted {α : Type} : Res α → Option Halt
  | .ok _ _ => none
  | .halt h _ => some h

/-- The value returned, `none` when the run stopped early. -/
def Res.value {α : Type} : Res α → Option α
  | .ok a _ => some a
  | .halt _ _ => none

/-- A piece of the program: a state transformer that may stop the process. -/
def Proc (α : Type) : Type := State → Res α

/-- Sequencing: a stopped run stays stopped. -/
def Proc.bind {α β : Type} (m : Proc α) (f : α → Proc β) : Proc β := fun s =>
  match m s with
  | .ok a t => f a t
  | .halt h t => .halt h t

instance : Monad Proc where
  pure a := fun s => .ok a s
  bind := Proc.bind

/-- Record an effect. -/
def emit (e : Effect) : Proc Unit := fun s => .ok () { s with log := s.log ++ [e] }

/-- Stop the process. -/
def halt {α : Type} (h : Halt) : Proc α := fun s => .halt h s

/-- Read the global `config`. -/
def getConfig : Proc Config := fun s => .ok s.config s

/-- Assign the global `config`. -/
def setConfig (c : Config) : Proc Unit := fun s => .ok () { s with config := c }

/-- Update the global `config`. -/
def modifyConfig (f : Config → Config) : Proc Unit := fun s => .ok () { s with config := f s.config }

/-- Read `maxcdn.APIHost`. -/
def getAPIHost : Proc String := fun s => .ok s.APIHost s

/-- Assign `maxcdn.APIHost`. -/
def setAPIHost (h : String) : Proc Unit := fun s => .ok () { s with APIHost := h }

/-- The texts written to standard output, one per print call, in order. -/
def stdoutOf : List Effect → List String
  | [] => []
  | .stdout t :: es => t :: stdoutOf es
  | _ :: es => stdoutOf es

/-- The requests issued, in order. -/
def requestsOf : List Effect → List (String × String × Values)
  | [] => []
  | .request m e f :: es => (m, e, f) :: requestsOf es
  | _ :: es => requestsOf es

/-- The paths passed to `ioutil.ReadFile`, in order. -/
def readsOf : List Effect → List String
  | [] => []
  | .readFile p :: es => p :: readsOf es
  | _ :: es => readsOf es

/-! ## Library functions used by the program -/

/-- Replacement loop of `strings.Replace` for a non-empty `old`: `n` replacements are
still allowed and `skip` characters of the occurrence just matched remain to be dropped. -/
def replaceGo (old new : List Char) : Nat → Nat → List Char → List Char
  | _, _, [] => []
  | n, k + 1, _ :: cs => replaceGo old new n k cs
  | 0, 0, c :: cs => c :: cs
  | n + 1, 0, c :: cs =>
    if old.isPrefixOf (c :: cs) then new ++ replaceGo old new n (old.length - 1) cs
    else c :: replaceGo old new (n + 1) 0 cs

/-- Insertion loop of `strings.Replace` for an empty `old`: `new` goes in front of each
character, and once after the last one, while replacements remain. -/
def insertGo (new : List Char) : Nat → List Char → List Char
  | 0, s => s
  | _ + 1, [] => new
  | n + 1, c :: cs => new ++ c :: insertGo new n cs

/-- The function `strings.Replace(s, old, new, n)`: the first `n` non-overlapping occurrences
of `old` replaced by `new`, all of them when `n < 0`. -/
def Replace (s old new : String) (n : Int) : String :=
  if old = new ∨ n = 0 then s
  else
    let k : Nat := if n < 0 then s.length + 1 else n.toNat
    if old = "" then String.mk (insertGo new.data k s.data)
    else String.mk (replaceGo old.data new.data k 0 s.data)

/-- The verb `%Ns` of `fmt`: the string right-justified in a field of `width` characters. -/
def padS (width : Nat) (s : String) : String :=
  String.mk (List.replicate (width - s.length) ' ') ++ s

/-! ## The command-line library (`codegangsta/cli`)

The library keeps, for the running command, the flag set of the command itself and the flag
set of the application.  `Context.String`, `Context.Int` and `Context.Bool` look a name up in
the former, `Context.GlobalString` in the latter; a name that the set does not define yields
the zero value. -/

/-- The value a parsed flag holds. -/
inductive FlagValue where
  | str (s : String)
  | int (i : Int)
  | bool (b : Bool)
  deriving DecidableEq

/-- A `flag.FlagSet` after parsing: every defined name with its value. -/
abbrev FlagSet := List (String × FlagValue)

/-- The library's `cli.Context`. -/
structure Context where
  flagSet : FlagSet
  globalSet : FlagSet

/-- The library's `lookupString`: the flag's value as text, `""` when the name is not defined. -/
def lookupString (name : String) (set : FlagSet) : String :=
  match set.lookup name with
  | some (.str s) => s
  | some (.int i) => toString i
  | some (.bool b) => toString b
  | none => ""

/-- The library's `lookupInt`: the flag's value read as an integer, and `0` when the set does
not hold the name or the value is no integer. -/
def lookupInt (name : String) (set : FlagSet) : Int :=
  match set.lookup name with
  | some (.int i) => i
  | some (.str s) => s.toInt?.getD 0
  | _ => 0

/-- The library's `lookupBool`: the flag's value read as a boolean, and `false` when the set
does not hold the name or the value is no boolean. -/
def lookupBool (name : String) (set : FlagSet) : Bool :=
  match set.lookup name with
  | some (.bool b) => b
  | some (.str s) => s ∈ ["1", "t", "T", "TRUE", "true", "True"]
  | some (.int i) => i == 1
  | none => false

/-- The method `c.Int(name)`: a flag of the running command. -/
def Context.Int (c : Context) (name : String) : Int := lookupInt name c.flagSet

/-- The method `c.Bool(name)`: a flag of the running command. -/
def Context.Bool (c : Context) (name : String) : Bool := lookupBool name c.flagSet

/-- The method `c.GlobalString(name)`: a flag of the application. -/
def Context.GlobalString (c : Context) (name : String) : String := lookupString name c.globalSet

/-- The method `c.String(name)`: a flag of the running command. -/
def Context.String (c : Context) (name : String) : String := lookupString name c.flagSet

/-- The global flags of `init` (report.go, lines 69-76) after parsing: a flag that was not
given holds its declared default. -/
structure GlobalArgs where
  config_ : String := "~/.maxcdn.yml"
  alias_ : String := ""
  token_ : String := ""
  secret_ : String := ""
  host_ : String := ""
  verbose_ : Bool := false

/-- The application's flag set: the names declared in `app.Flags`, long and short. -/
def globalFlagSet (g : GlobalArgs) : FlagSet :=
  [("config", .str g.config_), ("c", .str g.config_),
   ("alias", .str g.alias_), ("a", .str g.alias_),
   ("token", .str g.token_), ("t", .str g.token_),
   ("secret", .str g.secret_), ("s", .str g.secret_),
   ("host", .str g.host_), ("H", .str g.host_),
   ("verbose", .bool g.verbose_)]

/-- The flags of the `stats` command (report.go, lines 126-130) after parsing. -/
structure StatsArgs where
  from_ : String := ""
  to_ : String := ""
  type_ : String := ""

/-- The flag set of the `stats` command. -/
def statsFlagSet (a : StatsArgs) : FlagSet :=
  [("from", .str a.from_), ("to", .str a.to_), ("type", .str a.type_), ("t", .str a.type_)]

/-- The flags of the `popular` command (report.go, lines 144-148) after parsing. -/
structure PopularArgs where
  from_ : String := ""
  to_ : String := ""
  top_ : Int := 0

/-- The flag set of the `popular` command. -/
def popularFlagSet (a : PopularArgs) : FlagSet :=
  [("from", .str a.from_), ("to", .str a.to_), ("top", .int a.top_), ("t", .int a.top_)]

/-- The command selected on the command line, with its parsed flags. -/
inductive Command where
  | stats (a : StatsArgs)
  | popular (a : PopularArgs)

/-! ## The program (report.go) -/

/-- The function `check`: panic on a non-nil error. -/
def check (err : Option String) : Proc Unit :=
  match err with
  | some e => halt (.panic e)
  | none => pure ()

/-- The function `helpPrinter`: render the help template (panicking when that fails), write
it, and exit with status 0. -/
def helpPrinter (w : World) : Proc Unit :=
  match w.renderHelp with
  | .error e => halt (.panic e)
  | .ok text => do
    emit (.stdout text)
    halt (.exit 0)

/-- The library's `cli.ShowAppHelp(c)`, which calls `cli.HelpPrinter`; `init` has set that
variable to `helpPrinter`. -/
def ShowAppHelp (w : World) : Proc Unit := helpPrinter w

/-- The function `LoadConfig`: the decoded struct and the error. -/
def LoadConfig (w : World) (file : String) : Proc (Config × Option String) := do
  let file := Replace file "~" (w.getenv "HOME") 1
  let c : Config := {}
  emit (.readFile file)
  match w.readFile file with
  | some data => pure (w.unmarshal data c)
  | none => pure (c, none)

/-- The method `(*Config).Validate`: the message, and the receiver after the call. -/
def Config.Validate (c : Config) : String × Config :=
  let out := ""
  let out := if c.Alias = "" then out ++ "- missing alias value\n" else out
  let out := if c.Token = "" then out ++ "- missing token value\n" else out
  let out := if c.Secret = "" then out ++ "- missing secret value\n" else out
  (out, c)

/-- The closure `globals` of `init` (report.go, lines 79-118). -/
def globals (w : World) (c : Context) : Proc Unit := do
  let (loaded, _) ← LoadConfig w (c.GlobalString "config")
  setConfig loaded
  (if c.GlobalString "alias" ≠ "" then
    modifyConfig (fun k => { k with Alias := c.GlobalString "alias" })
  else if w.getenv "ALIAS" ≠ "" then
    modifyConfig (fun k => { k with Alias := w.getenv "ALIAS" })
  else pure ())
  (if c.GlobalString "token" ≠ "" then
    modifyConfig (fun k => { k with Token := c.GlobalString "token" })
  else if w.getenv "TOKEN" ≠ "" then
    modifyConfig (fun k => { k with Token := w.getenv "TOKEN" })
  else pure ())
  (if c.GlobalString "secret" ≠ "" then
    modifyConfig (fun k => { k with Secret := c.GlobalString "secret" })
  else if w.getenv "SECRET" ≠ "" then
    modifyConfig (fun k => { k with Secret := w.getenv "SECRET" })
  else pure ())
  let (v, after) := (← getConfig).Validate
  setConfig after
  (if v ≠ "" then do
    emit (.stdout ("argument error:\n" ++ v ++ "\n"))
    ShowAppHelp w
  else pure ())
  modifyConfig (fun k => { k with Verbose := c.Bool "verbose" })
  (if c.GlobalString "host" ≠ "" then
    modifyConfig (fun k => { k with Host := c.GlobalString "host" })
  else pure ())
  -- handle host override
  let cfg ← getConfig
  (if cfg.Host ≠ "" then setAPIHost cfg.Host else pure ())

/-- The `Action` of the `stats` command (report.go, lines 131-138). -/
def statsAction (w : World) (c : Context) : Proc Unit := do
  globals w c
  modifyConfig (fun k => { k with Report := "stats" })
  modifyConfig (fun k => { k with ReportType := c.String "type" })
  modifyConfig (fun k => { k with From := c.GlobalString "from" })
  modifyConfig (fun k => { k with To := c.GlobalString "to" })

/-- The `Action` of the `popular` command (report.go, lines 149-156). -/
def popularAction (w : World) (c : Context) : Proc Unit := do
  globals w c
  modifyConfig (fun k => { k with Report := "popular" })
  modifyConfig (fun k => { k with Top := c.Int "top" })
  modifyConfig (fun k => { k with From := c.GlobalString "from" })
  modifyConfig (fun k => { k with To := c.GlobalString "to" })

/-- The function `init` from `app.Run(os.Args)` on: the library parses the arguments and runs the
selected command's action on a context holding the command's and the application's flags. -/
def init (w : World) (g : GlobalArgs) (cmd : Command) : Proc Unit :=
  match cmd with
  | .stats a => statsAction w { flagSet := statsFlagSet a, globalSet := globalFlagSet g }
  | .popular a => popularAction w { flagSet := popularFlagSet a, globalSet := globalFlagSet g }

/-- The form built at the start of each report flow: `date_from` and `date_to` when set. -/
def dateForm (cfg : Config) : Values :=
  let form : Values := []
  let form := if cfg.From ≠ "" then form.Set "date_from" cfg.From else form
  let form := if cfg.To ≠ "" then form.Set "date_to" cfg.To else form
  form

/-- The function `statsSummary`. -/
def statsSummary (w : World) (max : MaxCDN) : Proc Unit := do
  emit (.stdout "Running summary stats report.\n\n")
  let cfg ← getConfig
  let form := dateForm cfg
  emit (.request "GET" w.StatsEndpoint form)
  let (raw, err) := w.Do max (← getAPIHost) "GET" w.StatsEndpoint form
  check err
  let (stats, err) := w.parseSummary raw
  check err
  emit (.stdout (padS 15 "total hits" ++ " | " ++ padS 15 "cache hits" ++ " | "
    ++ padS 15 "non-cache hits" ++ " | " ++ padS 15 "size" ++ "\n"))
  emit (.stdout "--------------------------------------------------------------------------------\n")
  emit (.stdout (padS 15 stats.Hit ++ " | " ++ padS 15 stats.CacheHit ++ " | "
    ++ padS 15 stats.NoncacheHit ++ " | " ++ padS 15 stats.Size ++ "\n"))
  emit (.stdout "\n")

/-- One data row of the breakdown table. -/
def multiRow (st : MultiStat) : String :=
  padS 25 st.Timestamp ++ " | " ++ padS 10 st.Hit ++ " | " ++ padS 10 st.CacheHit ++ " | "
    ++ padS 10 st.NoncacheHit ++ " | " ++ padS 10 st.Size ++ "\n"

/-- The `range` loop of `statsBreakdown`: one row per element. -/
def breakdownLoop : List MultiStat → Proc Unit
  | [] => pure ()
  | st :: rest => do
    emit (.stdout (multiRow st))
    breakdownLoop rest

/-- The function `statsBreakdown`. -/
def statsBreakdown (w : World) (max : MaxCDN) : Proc Unit := do
  let cfg ← getConfig
  emit (.stdout ("Running " ++ cfg.ReportType ++ " stats report.\n\n"))
  let form := dateForm cfg
  let endpoint := w.StatsEndpoint ++ "/" ++ cfg.ReportType
  emit (.request "GET" endpoint form)
  let (raw, err) := w.Do max (← getAPIHost) "GET" endpoint form
  check err
  let (stats, err) := w.parseMulti raw
  check err
  emit (.stdout (padS 25 "timestamp" ++ " | " ++ padS 10 "total" ++ " | " ++ padS 10 "cached"
    ++ " | " ++ padS 10 "non-cached" ++ " | " ++ padS 10 "size" ++ "\n"))
  emit (.stdout " -------------------------------------------------------------------------------\n")
  breakdownLoop stats
  emit (.stdout "\n")

/-- One data row of the popular-files table. -/
def popularRow (file : PopularFile) : String :=
  padS 10 file.Hit ++ " | " ++ file.Uri ++ "\n"

/-- The `range` loop of `popularFiles`, at index `i` with the elements from `i` on:
it breaks when `Top` is non-zero and equals the index. -/
def popularLoop (top : Int) : Nat → List PopularFile → Proc Unit
  | _, [] => pure ()
  | i, file :: rest =>
    if top ≠ 0 ∧ (i : Int) = top then pure ()
    else do
      emit (.stdout (popularRow file))
      popularLoop top (i + 1) rest

/-- The function `popularFiles`. -/
def popularFiles (w : World) (max : MaxCDN) : Proc Unit := do
  emit (.stdout "Running popular files report.\n\n")
  let cfg ← getConfig
  let form := dateForm cfg
  emit (.request "GET" w.PopularFilesEndpoint form)
  let (raw, err) := w.Do max (← getAPIHost) "GET" w.PopularFilesEndpoint form
  check err
  let (files, err) := w.parsePopular raw
  check err
  emit (.stdout (padS 10 "hits" ++ " | " ++ "file" ++ "\n"))
  emit (.stdout "   -----------------\n")
  popularLoop cfg.Top 0 files
  emit (.stdout "\n")

/-- The function `stats`. -/
def stats (w : World) (max : MaxCDN) : Proc Unit := do
  let cfg ← getConfig
  if cfg.ReportType = "" then
    statsSummary w max
  else
    statsBreakdown w max

/-- The function `main`. -/
def main (w : World) : Proc Unit := do
  let cfg ← getConfig
  let max : MaxCDN := { Alias := cfg.Alias, Token := cfg.Token, Secret := cfg.Secret }
  let max := { max with Verbose := cfg.Verbose }
  if cfg.Report = "popular" then
    popularFiles w max
  else
    stats w max

/-- The state the process starts in: zero `config`, the library's default API host. -/
def initialState (w : World) : State :=
  { config := {}, APIHost := w.defaultAPIHost, log := [] }

/-- A whole run for a command line naming one of the two commands: Go runs `init`, then `main`. -/
def run (w : World) (g : GlobalArgs) (cmd : Command) : Res Unit :=
  (do init w g cmd; main w : Proc Unit) (initialState w)

/-! ## Auxiliary definitions used in the statements -/

/-- The first non-empty value among flag, environment and file. -/
def firstSet (c e f : String) : String := if c ≠ "" then c else if e ≠ "" then e else f

/-- The struct `LoadConfig` returns for the path given by the `config` flag. -/
def loadedConfig (w : World) (c : Context) : Config :=
  match w.readFile (Replace (c.GlobalString "config") "~" (w.getenv "HOME") 1) with
  | some d => (w.unmarshal d {}).1
  | none => {}

/-- The global `config` when `globals` reaches the call of `Validate`. -/
def resolved (w : World) (c : Context) : Config :=
  let F := loadedConfig w c
  { F with
    Alias := firstSet (c.GlobalString "alias") (w.getenv "ALIAS") F.Alias
    Token := firstSet (c.GlobalString "token") (w.getenv "TOKEN") F.Token
    Secret := firstSet (c.GlobalString "secret") (w.getenv "SECRET") F.Secret }

/-- The client `main` builds from the global `config`. -/
def clientOf (cfg : Config) : MaxCDN :=
  { Alias := cfg.Alias, Token := cfg.Token, Secret := cfg.Secret, Verbose := cfg.Verbose }

/-- The context `init` hands to the action of the selected command. -/
def contextOf (g : GlobalArgs) : Command → Context
  | .stats a => { flagSet := statsFlagSet a, globalSet := globalFlagSet g }
  | .popular a => { flagSet := popularFlagSet a, globalSet := globalFlagSet g }

/-- What the action of the selected command assigns once `globals` has returned; the two
`GlobalString` look-ups of `from` and `to` find no such application flag. -/
def selected (cmd : Command) (k : Config) : Config :=
  match cmd with
  | .stats a => { k with Report := "stats", ReportType := a.type_, From := "", To := "" }
  | .popular a => { k with Report := "popular", Top := a.top_, From := "", To := "" }

/-- The elements the loop of `popularFiles` prints when it stands at index `i`. -/
def shown (top : Int) (i : Nat) (files : List PopularFile) : List PopularFile :=
  if top ≠ 0 ∧ (i : Int) ≤ top then files.take (top - i).toNat else files

/-- A sample environment: no variables set, no readable file, an API that answers. -/
def sampleWorld : World where
  getenv := fun _ => ""
  readFile := fun _ => none
  unmarshal := fun _ c => (c, none)
  renderHelp := .ok "usage"
  defaultAPIHost := "https://rws.example"
  StatsEndpoint := "/reports/stats.json"
  PopularFilesEndpoint := "/reports/popularfiles.json"
  Do := fun _ _ _ _ _ => ("raw", none)
  parseSummary := fun _ => ({ Hit := "10", CacheHit := "7", NoncacheHit := "3", Size := "99" }, none)
  parseMulti := fun _ => ([{ Timestamp := "2014-01-01", Hit := "4" }, { Timestamp := "2014-01-02", Hit := "6" }], none)
  parsePopular := fun _ =>
    ([{ Hit := "3", Uri := "/a" }, { Hit := "2", Uri := "/b" }, { Hit := "1", Uri := "/c" }], none)

/-- Global flags giving all three credentials on the command line. -/
def sampleCreds : GlobalArgs := { alias_ := "a", token_ := "t", secret_ := "s" }

/-! ## Lemmas on the result monad and the pieces of the program -/

@[simp] theorem pure_apply {α : Type} (a : α) (s : State) : (pure a : Proc α) s = .ok a s := rfl

@[simp] theorem bind_apply {α β : Type} (m : Proc α) (f : α → Proc β) (s : State) :
    (m >>= f) s = match m s with
      | .ok a t => f a t
      | .halt h t => .halt h t := rfl

theorem overlay_eq (F : Config) (c1 e1 c2 e2 c3 e3 : String) :
    (if c3 ≠ "" then
        { (if c2 ≠ "" then
            { (if c1 ≠ "" then { F with Alias := c1 } else if e1 ≠ "" then { F with Alias := e1 } else F)
              with Token := c2 }
          else if e2 ≠ "" then
            { (if c1 ≠ "" then { F with Alias := c1 } else if e1 ≠ "" then { F with Alias := e1 } else F)
              with Token := e2 }
          else (if c1 ≠ "" then { F with Alias := c1 } else if e1 ≠ "" then { F with Alias := e1 } else F))
          with Secret := c3 }
      else if e3 ≠ "" then
        { (if c2 ≠ "" then
            { (if c1 ≠ "" then { F with Alias := c1 } else if e1 ≠ "" then { F with Alias := e1 } else F)
              with Token := c2 }
          else if e2 ≠ "" then
            { (if c1 ≠ "" then { F with Alias := c1 } else if e1 ≠ "" then { F with Alias := e1 } else F)
              with Token := e2 }
          else (if c1 ≠ "" then { F with Alias := c1 } else if e1 ≠ "" then { F with Alias := e1 } else F))
          with Secret := e3 }
      else
        (if c2 ≠ "" then
            { (if c1 ≠ "" then { F with Alias := c1 } else if e1 ≠ "" then { F with Alias := e1 } else F)
              with Token := c2 }
          else if e2 ≠ "" then
            { (if c1 ≠ "" then { F with Alias := c1 } else if e1 ≠ "" then { F with Alias := e1 } else F)
              with Token := e2 }
          else (if c1 ≠ "" then { F with Alias := c1 } else if e1 ≠ "" then { F with Alias := e1 } else F)))
      = { F with Alias := firstSet c1 e1 F.Alias, Token := firstSet c2 e2 F.Token,
                 Secret := firstSet c3 e3 F.Secret } := by
  unfold firstSet
  by_cases h1 : c1 = "" <;> by_cases h2 : e1 = "" <;> simp only [h1, h2, ne_eq, not_true_eq_false, not_false_eq_true, if_true, if_false] <;>
  by_cases h3 : c2 = "" <;> by_cases h4 : e2 = "" <;> simp only [h3, h4, ne_eq, not_true_eq_false, not_false_eq_true, if_true, if_false] <;>
  by_cases h5 : c3 = "" <;> by_cases h6 : e3 = "" <;> simp only [h5, h6, ne_eq, not_true_eq_false, not_false_eq_true, if_true, if_false]

theorem ite_modify (p q : Prop) [Decidable p] [Decidable q] (f g : Config → Config) (s : State) :
    (if p then modifyConfig f else if q then modifyConfig g else pure ()) s
      = .ok () { s with config := if p then f s.config else if q then g s.config else s.config } := by
  by_cases hp : p <;> by_cases hq : q <;> simp [hp, hq, modifyConfig]

theorem ite_modify_one (p : Prop) [Decidable p] (f : Config → Config) (s : State) :
    (if p then modifyConfig f else pure ()) s
      = .ok () { s with config := if p then f s.config else s.config } := by
  by_cases hp : p <;> simp [hp, modifyConfig]

theorem help_step (w : World) (v : String) (s : State) :
    (if v ≠ "" then (do emit (.stdout ("argument error:\n" ++ v ++ "\n")); ShowAppHelp w : Proc Unit)
      else pure ()) s
      = if v = "" then .ok () s
        else match w.renderHelp with
          | .ok text => .halt (.exit 0)
              { s with log := s.log ++ [.stdout ("argument error:\n" ++ v ++ "\n")] ++ [.stdout text] }
          | .error e => .halt (.panic e)
              { s with log := s.log ++ [.stdout ("argument error:\n" ++ v ++ "\n")] } := by
  by_cases hv : v = ""
  · simp [hv]
  · cases hh : w.renderHelp <;> simp [hv, hh, ShowAppHelp, helpPrinter, emit, halt]

theorem globals_eq (w : World) (c : Context) (s : State) :
    globals w c s =
      let path := Replace (c.GlobalString "config") "~" (w.getenv "HOME") 1
      let cfg := resolved w c
      let log1 := s.log ++ [.readFile path]
      if cfg.Validate.1 = "" then
        let host := if c.GlobalString "host" ≠ "" then c.GlobalString "host" else cfg.Host
        .ok () { config := { cfg with Verbose := c.Bool "verbose", Host := host },
                 APIHost := if host ≠ "" then host else s.APIHost,
                 log := log1 }
      else
        let log2 := log1 ++ [.stdout ("argument error:\n" ++ cfg.Validate.1 ++ "\n")]
        match w.renderHelp with
        | .ok text => .halt (.exit 0) { config := cfg, APIHost := s.APIHost, log := log2 ++ [.stdout text] }
        | .error e => .halt (.panic e) { config := cfg, APIHost := s.APIHost, log := log2 } := by
  obtain ⟨e, hload⟩ : ∃ e, ∀ t : State, LoadConfig w (c.GlobalString "config") t
      = .ok (loadedConfig w c, e)
          { t with log := t.log ++ [.readFile (Replace (c.GlobalString "config") "~" (w.getenv "HOME") 1)] } := by
    cases hr : w.readFile (Replace (c.GlobalString "config") "~" (w.getenv "HOME") 1) with
    | none => exact ⟨none, fun t => by simp [LoadConfig, loadedConfig, hr, emit]⟩
    | some d => exact ⟨(w.unmarshal d {}).2, fun t => by simp [LoadConfig, loadedConfig, hr, emit]⟩
  have hov := overlay_eq (loadedConfig w c) (c.GlobalString "alias") (w.getenv "ALIAS")
    (c.GlobalString "token") (w.getenv "TOKEN") (c.GlobalString "secret") (w.getenv "SECRET")
  rw [show ({ loadedConfig w c with
      Alias := firstSet (c.GlobalString "alias") (w.getenv "ALIAS") (loadedConfig w c).Alias
      Token := firstSet (c.GlobalString "token") (w.getenv "TOKEN") (loadedConfig w c).Token
      Secret := firstSet (c.GlobalString "secret") (w.getenv "SECRET") (loadedConfig w c).Secret } : Config)
      = resolved w c from rfl] at hov
  simp only [globals, bind_apply, hload, setConfig, getConfig, ite_modify, ite_modify_one, help_step, hov]
  generalize resolved w c = cfg
  have hv2 : cfg.Validate.2 = cfg := rfl
  by_cases hv : cfg.Validate.1 = ""
  · simp only [hv, hv2, if_true, modifyConfig]
    by_cases hh : c.GlobalString "host" = "" <;> by_cases hk : cfg.Host = "" <;>
      simp [hh, hk, setAPIHost]
  · cases hr : w.renderHelp <;> simp [hv, hv2]

theorem popularLoop_eq (top : Int) (files : List PopularFile) :
    ∀ (i : Nat) (s : State), popularLoop top i files s
      = .ok () { s with log := s.log ++ (shown top i files).map (fun f => .stdout (popularRow f)) } := by
  induction files with
  | nil => intro i s; simp [popularLoop, shown]
  | cons f rest ih =>
    intro i s
    by_cases hb : top ≠ 0 ∧ (i : Int) = top
    · have h0 : (top - (i : Int)).toNat = 0 := by omega
      have hc : top ≠ 0 ∧ (i : Int) ≤ top := ⟨hb.1, by omega⟩
      simp [popularLoop, shown, hb, hc, h0]
    · by_cases hc : top ≠ 0 ∧ (i : Int) ≤ top
      · have hlt : (i : Int) < top := by
          rcases hc with ⟨h1, h2⟩
          by_contra hne
          exact hb ⟨h1, by omega⟩
        have hc2 : top ≠ 0 ∧ ((i + 1 : Nat) : Int) ≤ top := ⟨hc.1, by push_cast; omega⟩
        obtain ⟨k, hk⟩ : ∃ k, (top - (i : Int)).toNat = k + 1 := ⟨(top - (i : Int)).toNat - 1, by omega⟩
        have hk2 : (top - ((i + 1 : Nat) : Int)).toNat = k := by push_cast; omega
        simp only [popularLoop, if_neg hb, bind_apply, emit, ih, shown, if_pos hc, if_pos hc2, hk, hk2,
          List.take_succ_cons, List.map_cons, List.append_assoc, List.singleton_append]
      · have hc2 : ¬ (top ≠ 0 ∧ ((i + 1 : Nat) : Int) ≤ top) := by
          intro h
          apply hc
          exact ⟨h.1, by have := h.2; push_cast at this; omega⟩
        simp only [popularLoop, if_neg hb, bind_apply, emit, ih, shown, if_neg hc, if_neg hc2,
          List.map_cons, List.append_assoc, List.singleton_append]

theorem breakdownLoop_eq (rows : List MultiStat) :
    ∀ s : State, breakdownLoop rows s
      = .ok () { s with log := s.log ++ rows.map (fun st => .stdout (multiRow st)) } := by
  induction rows with
  | nil => intro s; simp [breakdownLoop]
  | cons st rest ih =>
    intro s
    simp only [breakdownLoop, bind_apply, emit, ih, List.map_cons, List.append_assoc, List.singleton_append]

theorem check_apply (err : Option String) (s : State) :
    check err s = match err with
      | some e => .halt (.panic e) s
      | none => .ok () s := by
  cases err <;> rfl

theorem popularFiles_eq (w : World) (max : MaxCDN) (s : State) :
    popularFiles w max s =
      let form := dateForm s.config
      let log1 := s.log ++ [.stdout "Running popular files report.\n\n",
        .request "GET" w.PopularFilesEndpoint form]
      let res := w.Do max s.APIHost "GET" w.PopularFilesEndpoint form
      let parsed := w.parsePopular res.1
      match res.2 with
      | some e => .halt (.panic e) { s with log := log1 }
      | none =>
        match parsed.2 with
        | some e => .halt (.panic e) { s with log := log1 }
        | none =>
          let rows : List Effect := (shown s.config.Top 0 parsed.1).map (fun f => .stdout (popularRow f))
          .ok () { s with log := log1
            ++ [.stdout (padS 10 "hits" ++ " | " ++ "file" ++ "\n"), .stdout "   -----------------\n"]
            ++ rows ++ [.stdout "\n"] } := by
  rcases hd : w.Do max s.APIHost "GET" w.PopularFilesEndpoint (dateForm s.config) with ⟨raw, _ | e⟩
  · rcases hp : w.parsePopular raw with ⟨files, _ | e2⟩ <;>
      simp [popularFiles, emit, getConfig, getAPIHost, check_apply, popularLoop_eq, hd, hp]
  · simp [popularFiles, emit, getConfig, getAPIHost, check_apply, popularLoop_eq, hd]

theorem statsSummary_eq (w : World) (max : MaxCDN) (s : State) :
    statsSummary w max s =
      let form := dateForm s.config
      let log1 := s.log ++ [.stdout "Running summary stats report.\n\n",
        .request "GET" w.StatsEndpoint form]
      let res := w.Do max s.APIHost "GET" w.StatsEndpoint form
      let parsed := w.parseSummary res.1
      match res.2 with
      | some e => .halt (.panic e) { s with log := log1 }
      | none =>
        match parsed.2 with
        | some e => .halt (.panic e) { s with log := log1 }
        | none =>
          .ok () { s with log := log1
            ++ [.stdout (padS 15 "total hits" ++ " | " ++ padS 15 "cache hits" ++ " | "
                  ++ padS 15 "non-cache hits" ++ " | " ++ padS 15 "size" ++ "\n"),
                .stdout "--------------------------------------------------------------------------------\n",
                .stdout (padS 15 parsed.1.Hit ++ " | " ++ padS 15 parsed.1.CacheHit ++ " | "
                  ++ padS 15 parsed.1.NoncacheHit ++ " | " ++ padS 15 parsed.1.Size ++ "\n"),
                .stdout "\n"] } := by
  rcases hd : w.Do max s.APIHost "GET" w.StatsEndpoint (dateForm s.config) with ⟨raw, _ | e⟩
  · rcases hp : w.parseSummary raw with ⟨st, _ | e2⟩ <;>
      simp [statsSummary, emit, getConfig, getAPIHost, check_apply, hd, hp]
  · simp [statsSummary, emit, getConfig, getAPIHost, check_apply, hd]

theorem statsBreakdown_eq (w : World) (max : MaxCDN) (s : State) :
    statsBreakdown w max s =
      let form := dateForm s.config
      let endpoint := w.StatsEndpoint ++ "/" ++ s.config.ReportType
      let log1 := s.log ++ [.stdout ("Running " ++ s.config.ReportType ++ " stats report.\n\n"),
        .request "GET" endpoint form]
      let res := w.Do max s.APIHost "GET" endpoint form
      let parsed := w.parseMulti res.1
      match res.2 with
      | some e => .halt (.panic e) { s with log := log1 }
      | none =>
        match parsed.2 with
        | some e => .halt (.panic e) { s with log := log1 }
        | none =>
          let rows : List Effect := parsed.1.map (fun st => .stdout (multiRow st))
          .ok () { s with log := log1
            ++ [.stdout (padS 25 "timestamp" ++ " | " ++ padS 10 "total" ++ " | " ++ padS 10 "cached"
                  ++ " | " ++ padS 10 "non-cached" ++ " | " ++ padS 10 "size" ++ "\n"),
                .stdout " -------------------------------------------------------------------------------\n"]
            ++ rows ++ [.stdout "\n"] } := by
  rcases hd : w.Do max s.APIHost "GET" (w.StatsEndpoint ++ "/" ++ s.config.ReportType)
    (dateForm s.config) with ⟨raw, _ | e⟩
  · rcases hp : w.parseMulti raw with ⟨sts, _ | e2⟩ <;>
      simp [statsBreakdown, emit, getConfig, getAPIHost, check_apply, breakdownLoop_eq, hd, hp]
  · simp [statsBreakdown, emit, getConfig, getAPIHost, check_apply, breakdownLoop_eq, hd]

theorem stats_eq (w : World) (max : MaxCDN) (s : State) :
    stats w max s = if s.config.ReportType = "" then statsSummary w max s else statsBreakdown w max s := by
  by_cases h : s.config.ReportType = "" <;> simp [stats, getConfig, h]

theorem main_eq (w : World) (s : State) :
    main w s =
      if s.config.Report = "popular" then popularFiles w (clientOf s.config) s
      else stats w (clientOf s.config) s := by
  by_cases h : s.config.Report = "popular" <;> simp [main, getConfig, h, clientOf]

/-- Every report flow leaves the package variables alone and starts by printing its banner. -/
theorem popularFiles_shape (w : World) (max : MaxCDN) (s : State) :
    ∃ rest, (popularFiles w max s).state
      = { s with log := s.log ++ .stdout "Running popular files report.\n\n" :: rest } := by
  rw [popularFiles_eq]
  rcases hd : w.Do max s.APIHost "GET" w.PopularFilesEndpoint (dateForm s.config) with ⟨raw, _ | e⟩
  · rcases hp : w.parsePopular raw with ⟨files, _ | e2⟩ <;> simp [hd, hp, Res.state]
  · simp [hd, Res.state]

theorem statsSummary_shape (w : World) (max : MaxCDN) (s : State) :
    ∃ rest, (statsSummary w max s).state
      = { s with log := s.log ++ .stdout "Running summary stats report.\n\n" :: rest } := by
  rw [statsSummary_eq]
  rcases hd : w.Do max s.APIHost "GET" w.StatsEndpoint (dateForm s.config) with ⟨raw, _ | e⟩
  · rcases hp : w.parseSummary raw with ⟨files, _ | e2⟩ <;> simp [hd, hp, Res.state]
  · simp [hd, Res.state]

theorem statsBreakdown_shape (w : World) (max : MaxCDN) (s : State) :
    ∃ rest, (statsBreakdown w max s).state
      = { s with log := s.log ++ .stdout ("Running " ++ s.config.ReportType ++ " stats report.\n\n") :: rest } := by
  rw [statsBreakdown_eq]
  rcases hd : w.Do max s.APIHost "GET" (w.StatsEndpoint ++ "/" ++ s.config.ReportType)
    (dateForm s.config) with ⟨raw, _ | e⟩
  · rcases hp : w.parseMulti raw with ⟨files, _ | e2⟩ <;> simp [hd, hp, Res.state]
  · simp [hd, Res.state]

theorem breakdown_banner_ne (t : String) :
    "Running " ++ t ++ " stats report.\n\n" ≠ "Running popular files report.\n\n" := by
  intro h
  have h2 := congrArg (fun x : String => (x.data.reverse.take 12)) h
  simp only [String.data_append, List.reverse_append] at h2
  revert h2
  simp

theorem lookup_config (g : GlobalArgs) : lookupString "config" (globalFlagSet g) = g.config_ := by
  simp [lookupString, globalFlagSet, List.lookup]
theorem lookup_alias (g : GlobalArgs) : lookupString "alias" (globalFlagSet g) = g.alias_ := by
  simp [lookupString, globalFlagSet, List.lookup]
theorem lookup_token (g : GlobalArgs) : lookupString "token" (globalFlagSet g) = g.token_ := by
  simp [lookupString, globalFlagSet, List.lookup]
theorem lookup_secret (g : GlobalArgs) : lookupString "secret" (globalFlagSet g) = g.secret_ := by
  simp [lookupString, globalFlagSet, List.lookup]
theorem lookup_host (g : GlobalArgs) : lookupString "host" (globalFlagSet g) = g.host_ := by
  simp [lookupString, globalFlagSet, List.lookup]
theorem lookup_from (g : GlobalArgs) : lookupString "from" (globalFlagSet g) = "" := by
  simp [lookupString, globalFlagSet, List.lookup]
theorem lookup_to (g : GlobalArgs) : lookupString "to" (globalFlagSet g) = "" := by
  simp [lookupString, globalFlagSet, List.lookup]

theorem LoadConfig_eq (w : World) (file : String) (s : State) :
    LoadConfig w file s
      = .ok (match w.readFile (Replace file "~" (w.getenv "HOME") 1) with
              | some d => w.unmarshal d {}
              | none => ({}, none))
          { s with log := s.log ++ [.readFile (Replace file "~" (w.getenv "HOME") 1)] } := by
  cases hr : w.readFile (Replace file "~" (w.getenv "HOME") 1) <;> simp [LoadConfig, emit, hr]

theorem LoadConfig_loaded (w : World) (c : Context) (s : State) :
    ∃ e, LoadConfig w (c.GlobalString "config") s = .ok (loadedConfig w c, e)
      { s with log := s.log ++ [.readFile (Replace (c.GlobalString "config") "~" (w.getenv "HOME") 1)] } := by
  rw [LoadConfig_eq]
  cases hr : w.readFile (Replace (c.GlobalString "config") "~" (w.getenv "HOME") 1) with
  | none => exact ⟨none, by simp [loadedConfig, hr]⟩
  | some d => exact ⟨(w.unmarshal d {}).2, by simp [loadedConfig, hr]⟩

theorem globals_state_creds (w : World) (c : Context) (s : State) :
    (globals w c s).state.config.Alias = (resolved w c).Alias ∧
    (globals w c s).state.config.Token = (resolved w c).Token ∧
    (globals w c s).state.config.Secret = (resolved w c).Secret := by
  rw [globals_eq]
  by_cases hv : (resolved w c).Validate.1 = ""
  · simp [hv, Res.state]
  · cases hr : w.renderHelp <;> simp [hv, Res.state]

theorem Validate_congr (a b : Config) (h1 : a.Alias = b.Alias) (h2 : a.Token = b.Token)
    (h3 : a.Secret = b.Secret) : a.Validate.1 = b.Validate.1 := by
  simp [Config.Validate, h1, h2, h3]

theorem lookup_type (a : StatsArgs) : lookupString "type" (statsFlagSet a) = a.type_ := by
  simp [lookupString, statsFlagSet, List.lookup]
theorem lookup_top (a : PopularArgs) : lookupInt "top" (popularFlagSet a) = a.top_ := by
  simp [lookupInt, popularFlagSet, List.lookup]

theorem init_eq (w : World) (g : GlobalArgs) (cmd : Command) (s : State) :
    init w g cmd s =
      match globals w (contextOf g cmd) s with
      | .ok _ t => .ok () { t with config := selected cmd t.config }
      | .halt h t => .halt h t := by
  cases cmd with
  | stats a =>
    simp only [init, statsAction, contextOf, bind_apply]
    cases globals w { flagSet := statsFlagSet a, globalSet := globalFlagSet g } s with
    | ok u t => simp [modifyConfig, selected, Context.String, Context.GlobalString, lookup_type,
        lookup_from, lookup_to]
    | halt h t => rfl
  | popular a =>
    simp only [init, popularAction, contextOf, bind_apply]
    cases globals w { flagSet := popularFlagSet a, globalSet := globalFlagSet g } s with
    | ok u t => simp [modifyConfig, selected, Context.Int, Context.GlobalString, lookup_top,
        lookup_from, lookup_to]
    | halt h t => rfl

theorem run_eq (w : World) (g : GlobalArgs) (cmd : Command) :
    run w g cmd =
      match globals w (contextOf g cmd) (initialState w) with
      | .ok _ t => main w { t with config := selected cmd t.config }
      | .halt h t => .halt h t := by
  simp only [run, bind_apply, init_eq]
  cases globals w (contextOf g cmd) (initialState w) <;> rfl

theorem main_shape (w : World) (s : State) :
    ∃ banner rest, (main w s).state = { s with log := s.log ++ .stdout banner :: rest } ∧
      (banner = "Running popular files report.\n\n" ↔ s.config.Report = "popular") := by
  rw [main_eq]
  by_cases h : s.config.Report = "popular"
  · obtain ⟨rest, hr⟩ := popularFiles_shape w (clientOf s.config) s
    exact ⟨_, rest, by simpa [h] using hr, by simp [h]⟩
  · rw [if_neg h, stats_eq]
    by_cases ht : s.config.ReportType = ""
    · obtain ⟨rest, hr⟩ := statsSummary_shape w (clientOf s.config) s
      exact ⟨_, rest, by simpa [ht] using hr, by simp [h]⟩
    · obtain ⟨rest, hr⟩ := statsBreakdown_shape w (clientOf s.config) s
      exact ⟨_, rest, by simpa [ht] using hr, by simp [h, breakdown_banner_ne]⟩

theorem main_config (w : World) (s : State) : (main w s).state.config = s.config := by
  obtain ⟨b, rest, hm, -⟩ := main_shape w s
  rw [hm]

theorem selected_creds (cmd : Command) (k : Config) :
    (selected cmd k).Alias = k.Alias ∧ (selected cmd k).Token = k.Token ∧
      (selected cmd k).Secret = k.Secret := by
  cases cmd <;> simp [selected]

theorem dateForm_eq (cfg : Config) :
    dateForm cfg = (if cfg.From ≠ "" then [("date_from", [cfg.From])] else [])
      ++ (if cfg.To ≠ "" then [("date_to", [cfg.To])] else []) := by
  by_cases h1 : cfg.From = "" <;> by_cases h2 : cfg.To = "" <;>
    simp [dateForm, Values.Set, h1, h2]

theorem init_drops_range (w : World) (g : GlobalArgs) (cmd : Command) (s : State)
    (h : (init w g cmd s).halted = none) :
    (init w g cmd s).state.config.From = "" ∧ (init w g cmd s).state.config.To = "" := by
  rw [init_eq] at h ⊢
  cases hg : globals w (contextOf g cmd) s with
  | ok u t => cases cmd <;> simp [Res.state, selected]
  | halt e t => simp [hg, Res.halted] at h

theorem requestsOf_append (a b : List Effect) :
    requestsOf (a ++ b) = requestsOf a ++ requestsOf b := by
  induction a with
  | nil => rfl
  | cons e es ih => cases e <;> simp [requestsOf, ih]

theorem requestsOf_stdout {α : Type} (f : α → String) (l : List α) :
    requestsOf (l.map (fun x => Effect.stdout (f x))) = [] := by
  induction l with
  | nil => rfl
  | cons x xs ih => simpa [requestsOf] using ih

theorem popularFiles_requests (w : World) (max : MaxCDN) (s : State) :
    requestsOf (popularFiles w max s).state.log
      = requestsOf s.log ++ [("GET", w.PopularFilesEndpoint, dateForm s.config)] := by
  rw [popularFiles_eq]
  rcases hd : w.Do max s.APIHost "GET" w.PopularFilesEndpoint (dateForm s.config) with ⟨raw, _ | e⟩
  · rcases hp : w.parsePopular raw with ⟨files, _ | e2⟩ <;>
      simp [hd, hp, Res.state, requestsOf_append, requestsOf_stdout, requestsOf]
  · simp [hd, Res.state, requestsOf_append, requestsOf]

theorem statsSummary_requests (w : World) (max : MaxCDN) (s : State) :
    requestsOf (statsSummary w max s).state.log
      = requestsOf s.log ++ [("GET", w.StatsEndpoint, dateForm s.config)] := by
  rw [statsSummary_eq]
  rcases hd : w.Do max s.APIHost "GET" w.StatsEndpoint (dateForm s.config) with ⟨raw, _ | e⟩
  · rcases hp : w.parseSummary raw with ⟨files, _ | e2⟩ <;>
      simp [hd, hp, Res.state, requestsOf_append, requestsOf]
  · simp [hd, Res.state, requestsOf_append, requestsOf]

theorem statsBreakdown_requests (w : World) (max : MaxCDN) (s : State) :
    requestsOf (statsBreakdown w max s).state.log
      = requestsOf s.log
        ++ [("GET", w.StatsEndpoint ++ "/" ++ s.config.ReportType, dateForm s.config)] := by
  rw [statsBreakdown_eq]
  rcases hd : w.Do max s.APIHost "GET" (w.StatsEndpoint ++ "/" ++ s.config.ReportType)
    (dateForm s.config) with ⟨raw, _ | e⟩
  · rcases hp : w.parseMulti raw with ⟨files, _ | e2⟩ <;>
      simp [hd, hp, Res.state, requestsOf_append, requestsOf_stdout, requestsOf]
  · simp [hd, Res.state, requestsOf_append, requestsOf]

/-- The one request of a run whose credentials are complete: its form is empty whatever the
command's `from` and `to` flags hold. -/
theorem run_requests (w : World) (g : GlobalArgs) (cmd : Command)
    (h : (resolved w (contextOf g cmd)).Validate.1 = "") :
    requestsOf (run w g cmd).state.log
      = [("GET",
          (match cmd with
           | .popular _ => w.PopularFilesEndpoint
           | .stats a => if a.type_ = "" then w.StatsEndpoint else w.StatsEndpoint ++ "/" ++ a.type_),
          [])] := by
  rw [run_eq, globals_eq]
  simp only [h, if_true, main_eq]
  cases cmd with
  | stats a =>
    by_cases ht : a.type_ = ""
    · simp [selected, stats_eq, ht, statsSummary_requests, dateForm_eq, initialState, requestsOf]
    · simp [selected, stats_eq, ht, statsBreakdown_requests, dateForm_eq, initialState, requestsOf]
  | popular a =>
    simp [selected, popularFiles_requests, dateForm_eq, initialState, requestsOf]

theorem replaceGo_zero (old new : List Char) (s : List Char) : replaceGo old new 0 0 s = s := by
  cases s <;> rfl

theorem replaceGo_tilde_none (new : List Char) (a : List Char) (ha : '~' ∉ a) :
    replaceGo ['~'] new 1 0 a = a := by
  induction a with
  | nil => rfl
  | cons c cs ih =>
    have hc : c ≠ '~' := fun h => ha (by simp [h])
    have hcs : '~' ∉ cs := fun h => ha (by simp [h])
    have hp : List.isPrefixOf ['~'] (c :: cs) = false := by
      simp [List.isPrefixOf, Ne.symm hc]
    simp [replaceGo, hp, ih hcs]

theorem replaceGo_tilde_first (new : List Char) (a b : List Char) (ha : '~' ∉ a) :
    replaceGo ['~'] new 1 0 (a ++ '~' :: b) = a ++ new ++ b := by
  induction a with
  | nil =>
    have hp : List.isPrefixOf ['~'] ('~' :: b) = true := by simp [List.isPrefixOf]
    simp [replaceGo, hp, replaceGo_zero]
  | cons c cs ih =>
    have hc : c ≠ '~' := fun h => ha (by simp [h])
    have hcs : '~' ∉ cs := fun h => ha (by simp [h])
    have hp : List.isPrefixOf ['~'] (c :: (cs ++ '~' :: b)) = false := by
      simp [List.isPrefixOf, Ne.symm hc]
    simp [replaceGo, hp, ih hcs]

theorem Replace_tilde_none (home : String) (a : List Char) (ha : '~' ∉ a) :
    Replace (String.mk a) "~" home 1 = String.mk a := by
  unfold Replace
  by_cases h : "~" = home
  · simp [h]
  · have h1 : ¬ ("~" = home ∨ (1 : Int) = 0) := by simp [h]
    have h2 : ¬ ("~" = "") := by decide
    simp only [if_neg h1, if_neg h2]
    have hk : (if (1 : Int) < 0 then (String.mk a).length + 1 else (1 : Int).toNat) = 1 := by
      rw [if_neg (by decide)]
      rfl
    rw [hk]
    show String.mk (replaceGo ['~'] home.data 1 0 a) = String.mk a
    rw [replaceGo_tilde_none home.data a ha]

theorem Replace_tilde_first (home : String) (a b : List Char) (ha : '~' ∉ a) :
    Replace (String.mk (a ++ '~' :: b)) "~" home 1 = String.mk (a ++ home.data ++ b) := by
  unfold Replace
  by_cases h : "~" = home
  · subst h
    simp
  · have h1 : ¬ ("~" = home ∨ (1 : Int) = 0) := by simp [h]
    have h2 : ¬ ("~" = "") := by decide
    simp only [if_neg h1, if_neg h2]
    have hk : (if (1 : Int) < 0 then (String.mk (a ++ '~' :: b)).length + 1 else (1 : Int).toNat) = 1 := by
      rw [if_neg (by decide)]
      rfl
    rw [hk]
    show String.mk (replaceGo ['~'] home.data 1 0 (a ++ '~' :: b)) = String.mk (a ++ home.data ++ b)
    rw [replaceGo_tilde_first home.data a b ha]

theorem loadedConfig_congr (w w2 : World) (c : Context) (hr : w2.readFile = w.readFile)
    (hu : w2.unmarshal = w.unmarshal) (hh : w2.getenv "HOME" = w.getenv "HOME") :
    loadedConfig w2 c = loadedConfig w c := by
  simp [loadedConfig, hr, hu, hh]

theorem globals_valid_iff (w : World) (c : Context) (s : State) :
    (globals w c s).state.config.Validate.1 = (resolved w c).Validate.1 := by
  obtain ⟨h1, h2, h3⟩ := globals_state_creds w c s
  exact Validate_congr _ _ h1 h2 h3

theorem globals_host_total (w : World) (c : Context) (s : State) :
    (globals w c s).halted
        = (if (globals w c s).state.config.Validate.1 = "" then none
           else match w.renderHelp with
             | .ok _ => some (.exit 0)
             | .error e => some (.panic e)) ∧
      (globals w c s).state.config.Host
        = (if (globals w c s).state.config.Validate.1 = "" then
             (if c.GlobalString "host" ≠ "" then c.GlobalString "host" else (loadedConfig w c).Host)
           else (loadedConfig w c).Host) ∧
      (globals w c s).state.APIHost
        = (if (globals w c s).state.config.Validate.1 = "" ∧ (globals w c s).state.config.Host ≠ ""
           then (globals w c s).state.config.Host else s.APIHost) := by
  have hH : (resolved w c).Host = (loadedConfig w c).Host := rfl
  rw [globals_valid_iff]
  rw [globals_eq]
  by_cases hv : (resolved w c).Validate.1 = ""
  · simp only [hv, if_true, Res.halted, Res.state, hH]
    simp
  · cases hr : w.renderHelp <;> simp [hv, hr, Res.halted, Res.state, hH]

theorem popularRow_eq (f : PopularFile) :
    popularRow f
      = String.mk (List.replicate (10 - f.Hit.length) ' ') ++ f.Hit ++ " | " ++ f.Uri ++ "\n" := rfl

theorem multiRow_eq (x : MultiStat) :
    multiRow x
      = String.mk (List.replicate (25 - x.Timestamp.length) ' ') ++ x.Timestamp ++ " | "
        ++ String.mk (List.replicate (10 - x.Hit.length) ' ') ++ x.Hit ++ " | "
        ++ String.mk (List.replicate (10 - x.CacheHit.length) ' ') ++ x.CacheHit ++ " | "
        ++ String.mk (List.replicate (10 - x.NoncacheHit.length) ' ') ++ x.NoncacheHit ++ " | "
        ++ String.mk (List.replicate (10 - x.Size.length) ' ') ++ x.Size ++ "\n" := by
  simp [multiRow, padS, String.append_assoc]

theorem popular_header_eq : padS 10 "hits" ++ " | " ++ "file" ++ "\n" = "      hits | file\n" := by
  decide

theorem summary_header_eq :
    padS 15 "total hits" ++ " | " ++ padS 15 "cache hits" ++ " | "
        ++ padS 15 "non-cache hits" ++ " | " ++ padS 15 "size" ++ "\n"
      = "     total hits |      cache hits |  non-cache hits |            size\n" := by
  decide

theorem breakdown_header_eq :
    padS 25 "timestamp" ++ " | " ++ padS 10 "total" ++ " | " ++ padS 10 "cached"
        ++ " | " ++ padS 10 "non-cached" ++ " | " ++ padS 10 "size" ++ "\n"
      = "                timestamp |      total |     cached | non-cached |       size\n" := by
  decide

theorem summaryRow_eq (st : SummaryStat) :
    padS 15 st.Hit ++ " | " ++ padS 15 st.CacheHit ++ " | "
        ++ padS 15 st.NoncacheHit ++ " | " ++ padS 15 st.Size ++ "\n"
      = String.mk (List.replicate (15 - st.Hit.length) ' ') ++ st.Hit ++ " | "
        ++ String.mk (List.replicate (15 - st.CacheHit.length) ' ') ++ st.CacheHit ++ " | "
        ++ String.mk (List.replicate (15 - st.NoncacheHit.length) ' ') ++ st.NoncacheHit ++ " | "
        ++ String.mk (List.replicate (15 - st.Size.length) ' ') ++ st.Size ++ "\n" := by
  simp [padS, String.append_assoc]

/-! ## The claims -/

/-- C1. Precedence of the credentials: whatever state `globals` starts in and however it ends
(returning, or stopping in the help printer), `LoadConfig` has returned some struct `F`, and each
of `Alias`, `Token`, `Secret` of the global `config` holds the command-line value when that is
non-empty, else the value of the environment variable `ALIAS`, `TOKEN`, `SECRET` when that is
non-empty, else the field of `F`. -/
theorem globals_precedence (w : World) (g : GlobalArgs) (fs : FlagSet) (s : State) :
    ∃ F e t, LoadConfig w g.config_ s = .ok (F, e) t ∧
      (globals w { flagSet := fs, globalSet := globalFlagSet g } s).state.config.Alias
        = (if g.alias_ ≠ "" then g.alias_
           else if w.getenv "ALIAS" ≠ "" then w.getenv "ALIAS" else F.Alias) ∧
      (globals w { flagSet := fs, globalSet := globalFlagSet g } s).state.config.Token
        = (if g.token_ ≠ "" then g.token_
           else if w.getenv "TOKEN" ≠ "" then w.getenv "TOKEN" else F.Token) ∧
      (globals w { flagSet := fs, globalSet := globalFlagSet g } s).state.config.Secret
        = (if g.secret_ ≠ "" then g.secret_
           else if w.getenv "SECRET" ≠ "" then w.getenv "SECRET" else F.Secret) := by
  obtain ⟨e, he⟩ := LoadConfig_loaded w { flagSet := fs, globalSet := globalFlagSet g } s
  have hc := globals_state_creds w { flagSet := fs, globalSet := globalFlagSet g } s
  simp only [Context.GlobalString, lookup_config] at he
  refine ⟨_, e, _, he, ?_⟩
  simpa only [resolved, firstSet, Context.GlobalString, lookup_alias, lookup_token, lookup_secret] using hc

/-- C2. `Validate` returns the concatenation, in the order alias, token, secret, of one line
for each empty field and nothing for a non-empty one; the message is empty exactly when the three
fields are all non-empty; and the receiver is the same struct after the call. -/
theorem Validate_spec (c : Config) :
    c.Validate.1 =
        (if c.Alias = "" then "- missing alias value\n" else "")
          ++ (if c.Token = "" then "- missing token value\n" else "")
          ++ (if c.Secret = "" then "- missing secret value\n" else "")
      ∧ (c.Validate.1 = "" ↔ c.Alias ≠ "" ∧ c.Token ≠ "" ∧ c.Secret ≠ "")
      ∧ c.Validate.2 = c := by
  unfold Config.Validate
  by_cases ha : c.Alias = "" <;> by_cases ht : c.Token = "" <;> by_cases hs : c.Secret = "" <;>
    simp [ha, ht, hs]

/-- C3, as stated, fails: with no credential on the command line, in the environment or in a
file, the run of `stats` ends in the help printer with exit status 0 and has issued no request. -/
theorem missing_credentials_stop_the_run :
    (run sampleWorld {} (.stats {})).state.config.Validate.1 ≠ "" ∧
      (run sampleWorld {} (.stats {})).halted = some (.exit 0) ∧
      requestsOf (run sampleWorld {} (.stats {})).state.log = [] := by
  decide

/-- C3, amended. When the global `config` a run ends with has an empty `Alias`, `Token` or
`Secret` (`Validate` gives a non-empty message), the run was stopped inside the validation step of
`globals`: after the advisory text the help printer writes the help and exits with status 0 (or
panics when the help template fails), no report flow runs and no request is issued. -/
theorem invalid_config_stops_before_request (w : World) (g : GlobalArgs) (cmd : Command)
    (h : (run w g cmd).state.config.Validate.1 ≠ "") :
    requestsOf (run w g cmd).state.log = [] ∧
      (∀ text, w.renderHelp = .ok text →
        (run w g cmd).halted = some (.exit 0) ∧
        stdoutOf (run w g cmd).state.log
          = ["argument error:\n" ++ (run w g cmd).state.config.Validate.1 ++ "\n", text]) ∧
      (∀ e, w.renderHelp = .error e →
        (run w g cmd).halted = some (.panic e) ∧
        stdoutOf (run w g cmd).state.log
          = ["argument error:\n" ++ (run w g cmd).state.config.Validate.1 ++ "\n"]) := by
  rw [run_eq, globals_eq] at h ⊢
  by_cases hv : (resolved w (contextOf g cmd)).Validate.1 = ""
  · exfalso
    apply h
    simp only [hv, if_true, main_config]
    rw [← hv]
    apply Validate_congr <;> simp [selected_creds]
  · cases hr : w.renderHelp <;>
      simp [hv, hr, Res.state, Res.halted, requestsOf, stdoutOf, initialState]

/-- C3, amended: an instance, the `popular` command without any credential. -/
theorem invalid_config_stops_before_request_witness :
    (run sampleWorld {} (.popular {})).state.config.Validate.1 ≠ "" ∧
      requestsOf (run sampleWorld {} (.popular {})).state.log = [] :=
  ⟨by decide, (invalid_config_stops_before_request sampleWorld {} (.popular {}) (by decide)).1⟩

/-- C4 does not hold of the code. With all credentials given and `--from 2014-01-01 --to 2014-01-31`
passed to the command, the one request of the run carries an empty form, for `stats` and for
`popular` alike: the actions read `from` and `to` with `GlobalString`, which looks at the
application's flags, where no such flag is declared. -/
theorem range_flags_not_sent :
    requestsOf (run sampleWorld sampleCreds
        (.stats { from_ := "2014-01-01", to_ := "2014-01-31" })).state.log
      = [("GET", "/reports/stats.json", [])] ∧
    requestsOf (run sampleWorld sampleCreds
        (.popular { from_ := "2014-01-01", to_ := "2014-01-31" })).state.log
      = [("GET", "/reports/popularfiles.json", [])] := by
  constructor
  · rw [run_requests sampleWorld sampleCreds _ (by decide)]
    rfl
  · rw [run_requests sampleWorld sampleCreds _ (by decide)]
    rfl

/-- C5. When the request and the parsing succeed with the list `files`, `popularFiles` returns
after writing the banner, the header `hits | file`, the separator, then for each element of `rows`
in order one row, namely its `Hit` right-justified in 10 characters, ` | `, its `Uri` and a newline,
and a blank line; here `rows` is the first `Top` elements of `files` (exactly `Top` rows) when
`0 < Top < length files`, and all of `files` when `Top = 0`. -/
theorem popularFiles_top (w : World) (max : MaxCDN) (s : State) (raw : String)
    (files : List PopularFile)
    (hdo : w.Do max s.APIHost "GET" w.PopularFilesEndpoint (dateForm s.config) = (raw, none))
    (hparse : w.parsePopular raw = (files, none)) :
    ∃ rows : List PopularFile,
      popularFiles w max s = .ok () ⟨s.config, s.APIHost, s.log
        ++ [.stdout "Running popular files report.\n\n",
            .request "GET" w.PopularFilesEndpoint (dateForm s.config),
            .stdout "      hits | file\n",
            .stdout "   -----------------\n"]
        ++ rows.map (fun f => .stdout
            (String.mk (List.replicate (10 - f.Hit.length) ' ') ++ f.Hit ++ " | " ++ f.Uri ++ "\n"))
        ++ [.stdout "\n"]⟩ ∧
      (0 < s.config.Top → s.config.Top < files.length →
        rows = files.take s.config.Top.toNat ∧ (rows.length : Int) = s.config.Top) ∧
      (s.config.Top = 0 → rows = files) := by
  refine ⟨shown s.config.Top 0 files, ?_, ?_, ?_⟩
  · rw [popularFiles_eq]
    simp only [hdo, hparse, popular_header_eq, popularRow_eq]
    simp
  · intro h0 hlt
    have hc : s.config.Top ≠ 0 ∧ (0 : Int) ≤ s.config.Top := ⟨by omega, by omega⟩
    have hlen : s.config.Top.toNat ≤ files.length := by omega
    have hs : shown s.config.Top 0 files = files.take s.config.Top.toNat := by
      simp only [shown, Nat.cast_zero, sub_zero]
      rw [if_pos hc]
    rw [hs, List.length_take, Nat.min_eq_left hlen]
    exact ⟨rfl, by omega⟩
  · intro h0
    simp [shown, h0]

/-- C5: an instance, the three files `(3, /a)`, `(2, /b)`, `(1, /c)` and `Top = 2`: the texts
written are the banner, the header, the separator, the rows of `/a` and `/b`, and a blank line. -/
theorem popularFiles_top_witness :
    stdoutOf (popularFiles sampleWorld (clientOf {}) { config := { Top := 2 } }).state.log
      = ["Running popular files report.\n\n",
         "      hits | file\n",
         "   -----------------\n",
         "         3 | /a\n",
         "         2 | /b\n",
         "\n"] := by
  obtain ⟨rows, hrun, h, -⟩ := popularFiles_top sampleWorld (clientOf {})
    { config := { Top := 2 } } "raw"
    [{ Hit := "3", Uri := "/a" }, { Hit := "2", Uri := "/b" }, { Hit := "1", Uri := "/c" }] rfl rfl
  obtain ⟨hrows, -⟩ := h (by decide) (by decide)
  rw [hrun, hrows]
  decide

/-- C6. `main` runs `popularFiles` when `Report` is exactly `"popular"` and `stats` for every
other string; accordingly the first thing `main` writes is the banner of the popular-files flow
if and only if `Report = "popular"`. -/
theorem main_dispatch (w : World) (s : State) :
    main w s = (if s.config.Report = "popular" then popularFiles w (clientOf s.config) s
                else stats w (clientOf s.config) s) ∧
      ∃ banner rest, (main w s).state.log = s.log ++ .stdout banner :: rest ∧
        (banner = "Running popular files report.\n\n" ↔ s.config.Report = "popular") := by
  refine ⟨main_eq w s, ?_⟩
  obtain ⟨b, rest, hm, hb⟩ := main_shape w s
  exact ⟨b, rest, by rw [hm], hb⟩

/-- C7. In `stats`, when the request and the parsing succeed: with `ReportType` empty the
summary flow runs against `StatsEndpoint` and writes exactly one data row, the four totals each
right-justified in 15 characters; with `ReportType` non-empty the breakdown flow runs against
`StatsEndpoint ++ "/" ++ ReportType` and writes, for each element of the returned list in the
order of the list, one data row: its `Timestamp` right-justified in 25 characters and its `Hit`,
`CacheHit`, `NoncacheHit`, `Size` each in 10, separated by ` | `. -/
theorem stats_branch (w : World) (max : MaxCDN) (s : State) (rawS rawB : String)
    (st : SummaryStat) (sts : List MultiStat)
    (hS : s.config.ReportType = "" →
      w.Do max s.APIHost "GET" w.StatsEndpoint (dateForm s.config) = (rawS, none) ∧
      w.parseSummary rawS = (st, none))
    (hB : s.config.ReportType ≠ "" →
      w.Do max s.APIHost "GET" (w.StatsEndpoint ++ "/" ++ s.config.ReportType) (dateForm s.config)
        = (rawB, none) ∧
      w.parseMulti rawB = (sts, none)) :
    (s.config.ReportType = "" →
      stats w max s = .ok () ⟨s.config, s.APIHost, s.log
        ++ [.stdout "Running summary stats report.\n\n",
            .request "GET" w.StatsEndpoint (dateForm s.config),
            .stdout "     total hits |      cache hits |  non-cache hits |            size\n",
            .stdout "--------------------------------------------------------------------------------\n",
            .stdout
              (String.mk (List.replicate (15 - st.Hit.length) ' ') ++ st.Hit ++ " | "
                ++ String.mk (List.replicate (15 - st.CacheHit.length) ' ') ++ st.CacheHit ++ " | "
                ++ String.mk (List.replicate (15 - st.NoncacheHit.length) ' ') ++ st.NoncacheHit ++ " | "
                ++ String.mk (List.replicate (15 - st.Size.length) ' ') ++ st.Size ++ "\n"),
            .stdout "\n"]⟩) ∧
    (s.config.ReportType ≠ "" →
      stats w max s = .ok () ⟨s.config, s.APIHost, s.log
        ++ [.stdout ("Running " ++ s.config.ReportType ++ " stats report.\n\n"),
            .request "GET" (w.StatsEndpoint ++ "/" ++ s.config.ReportType) (dateForm s.config),
            .stdout "                timestamp |      total |     cached | non-cached |       size\n",
            .stdout " -------------------------------------------------------------------------------\n"]
        ++ sts.map (fun x => .stdout
            (String.mk (List.replicate (25 - x.Timestamp.length) ' ') ++ x.Timestamp ++ " | "
              ++ String.mk (List.replicate (10 - x.Hit.length) ' ') ++ x.Hit ++ " | "
              ++ String.mk (List.replicate (10 - x.CacheHit.length) ' ') ++ x.CacheHit ++ " | "
              ++ String.mk (List.replicate (10 - x.NoncacheHit.length) ' ') ++ x.NoncacheHit ++ " | "
              ++ String.mk (List.replicate (10 - x.Size.length) ' ') ++ x.Size ++ "\n"))
        ++ [.stdout "\n"]⟩) := by
  constructor
  · intro h
    obtain ⟨h1, h2⟩ := hS h
    rw [stats_eq, if_pos h, statsSummary_eq]
    simp only [h1, h2, summary_header_eq, summaryRow_eq]
    simp
  · intro h
    obtain ⟨h1, h2⟩ := hB h
    rw [stats_eq, if_neg h, statsBreakdown_eq]
    simp only [h1, h2, breakdown_header_eq, multiRow_eq]
    simp

/-- C7: an instance, the daily breakdown with the buckets `2014-01-01` (4 hits) and
`2014-01-02` (6 hits): one row for each, in that order, between the separator and the blank line. -/
theorem stats_branch_witness :
    stdoutOf (stats sampleWorld (clientOf {}) { config := { ReportType := "daily" } }).state.log
      = ["Running daily stats report.\n\n",
         "                timestamp |      total |     cached | non-cached |       size\n",
         " -------------------------------------------------------------------------------\n",
         "               2014-01-01 |          4 |            |            |           \n",
         "               2014-01-02 |          6 |            |            |           \n",
         "\n"] := by
  have h := (stats_branch sampleWorld (clientOf {}) { config := { ReportType := "daily" } }
    "raw" "raw" {} [{ Timestamp := "2014-01-01", Hit := "4" }, { Timestamp := "2014-01-02", Hit := "6" }]
    (fun h => absurd h (by decide)) (fun _ => ⟨rfl, rfl⟩)).2 (by decide)
  rw [h]
  decide

/-- C8, as stated, fails: with `--host cdn.example` but no credential anywhere, `globals` stops in
the help printer before the host flag is looked at; `config.Host` is still the (empty) value from
the file and `maxcdn.APIHost` is untouched. -/
theorem host_flag_ignored_without_credentials :
    (globals sampleWorld (contextOf { host_ := "cdn.example" } (.stats {}))
        (initialState sampleWorld)).halted = some (.exit 0) ∧
      (globals sampleWorld (contextOf { host_ := "cdn.example" } (.stats {}))
        (initialState sampleWorld)).state.config.Host = "" ∧
      (globals sampleWorld (contextOf { host_ := "cdn.example" } (.stats {}))
        (initialState sampleWorld)).state.APIHost = sampleWorld.defaultAPIHost := by
  decide

/-- C8, amended. Let `F` be the struct `LoadConfig` returned. `globals` returns exactly when the
three credentials resolve to non-empty values, and otherwise stops in the help printer (exit status
0, or a panic when the help template fails). In the first case `config.Host` is the `host` flag
when that is non-empty and `F.Host` otherwise, and `maxcdn.APIHost` becomes that host when it is
non-empty; in the second case the host flag has not been applied, `config.Host` is `F.Host`
whatever the flag holds and `maxcdn.APIHost` keeps its value. No environment variable supplies a
host: another environment with the same files and the same `HOME`, under which the credentials
resolve or fail to resolve alike, gives the same `config.Host`. -/
theorem host_resolution (w : World) (g : GlobalArgs) (fs : FlagSet) (s : State) :
    ∃ F e t, LoadConfig w g.config_ s = .ok (F, e) t ∧
      (globals w { flagSet := fs, globalSet := globalFlagSet g } s).halted
        = (if (globals w { flagSet := fs, globalSet := globalFlagSet g } s).state.config.Validate.1 = ""
           then none
           else match w.renderHelp with
             | .ok _ => some (.exit 0)
             | .error e => some (.panic e)) ∧
      (globals w { flagSet := fs, globalSet := globalFlagSet g } s).state.config.Host
        = (if (globals w { flagSet := fs, globalSet := globalFlagSet g } s).state.config.Validate.1 = ""
           then (if g.host_ ≠ "" then g.host_ else F.Host)
           else F.Host) ∧
      (globals w { flagSet := fs, globalSet := globalFlagSet g } s).state.APIHost
        = (if (globals w { flagSet := fs, globalSet := globalFlagSet g } s).state.config.Validate.1 = ""
              ∧ (globals w { flagSet := fs, globalSet := globalFlagSet g } s).state.config.Host ≠ ""
           then (globals w { flagSet := fs, globalSet := globalFlagSet g } s).state.config.Host
           else s.APIHost) ∧
      ∀ w2 : World, w2.readFile = w.readFile → w2.unmarshal = w.unmarshal →
        w2.getenv "HOME" = w.getenv "HOME" →
        ((globals w2 { flagSet := fs, globalSet := globalFlagSet g } s).state.config.Validate.1 = ""
          ↔ (globals w { flagSet := fs, globalSet := globalFlagSet g } s).state.config.Validate.1 = "") →
        (globals w2 { flagSet := fs, globalSet := globalFlagSet g } s).state.config.Host
          = (globals w { flagSet := fs, globalSet := globalFlagSet g } s).state.config.Host := by
  obtain ⟨e, he⟩ := LoadConfig_loaded w { flagSet := fs, globalSet := globalFlagSet g } s
  simp only [Context.GlobalString, lookup_config] at he
  obtain ⟨h1, h2, h3⟩ := globals_host_total w { flagSet := fs, globalSet := globalFlagSet g } s
  simp only [Context.GlobalString, lookup_host] at h2
  refine ⟨_, e, _, he, h1, h2, h3, ?_⟩
  intro w2 hr hu hh hiff
  obtain ⟨-, k2, -⟩ := globals_host_total w2 { flagSet := fs, globalSet := globalFlagSet g } s
  simp only [Context.GlobalString, lookup_host] at k2
  rw [k2, h2, loadedConfig_congr w w2 _ hr hu hh]
  by_cases hv : (globals w { flagSet := fs, globalSet := globalFlagSet g } s).state.config.Validate.1 = ""
  · rw [if_pos (hiff.mpr hv), if_pos hv]
  · rw [if_neg (fun h => hv (hiff.mp h)), if_neg hv]

/-- C8, amended: an instance, all credentials and `--host cdn.example` on the command line. -/
theorem host_resolution_witness :
    (globals sampleWorld { flagSet := [], globalSet := globalFlagSet { sampleCreds with host_ := "cdn.example" } }
        (initialState sampleWorld)).state.config.Host = "cdn.example" ∧
      (globals sampleWorld { flagSet := [], globalSet := globalFlagSet { sampleCreds with host_ := "cdn.example" } }
        (initialState sampleWorld)).state.APIHost = "cdn.example" := by
  obtain ⟨F, e, t, -, -, h2, h3, -⟩ := host_resolution sampleWorld
    { sampleCreds with host_ := "cdn.example" } [] (initialState sampleWorld)
  have hv : (globals sampleWorld
      { flagSet := [], globalSet := globalFlagSet { sampleCreds with host_ := "cdn.example" } }
      (initialState sampleWorld)).state.config.Validate.1 = "" := by decide
  rw [h3, h2]
  simp [hv]

/-- C9. When the expanded path cannot be read, `LoadConfig` returns the struct with every field
at its zero value, and a nil error. -/
theorem LoadConfig_unreadable (w : World) (file : String) (s : State)
    (h : w.readFile (Replace file "~" (w.getenv "HOME") 1) = none) :
    (LoadConfig w file s).value
      = some ({ Host := "", Alias := "", Token := "", Secret := "", From := "", To := "", Top := 0,
                Verbose := false, Report := "", ReportType := "" }, none) := by
  rw [LoadConfig_eq, h]
  rfl

/-- C9: an instance, the default path in an environment without readable files. -/
theorem LoadConfig_unreadable_witness :
    (LoadConfig sampleWorld "~/.maxcdn.yml" {}).value = some ({}, none) :=
  LoadConfig_unreadable sampleWorld "~/.maxcdn.yml" {} rfl

/-- C10. The path `LoadConfig` passes to `ioutil.ReadFile`: for a path `a ++ "~" ++ b` whose part
`a` holds no `~`, that first `~` is replaced by the value of `HOME` and `b` is kept as it is
(later `~` included); a path `a` without `~` is read unchanged. -/
theorem LoadConfig_path (w : World) (s : State) (a b : List Char) (ha : '~' ∉ a) :
    (LoadConfig w (String.mk (a ++ '~' :: b)) s).state.log
        = s.log ++ [.readFile (String.mk (a ++ (w.getenv "HOME").data ++ b))] ∧
      (LoadConfig w (String.mk a) s).state.log = s.log ++ [.readFile (String.mk a)] := by
  rw [LoadConfig_eq, LoadConfig_eq, Replace_tilde_first _ a b ha, Replace_tilde_none _ a ha]
  exact ⟨rfl, rfl⟩

/-- C10: an instance, `a~b~c` with `HOME=/home/u`, and the path `a`. -/
theorem LoadConfig_path_witness :
    (LoadConfig { sampleWorld with getenv := fun _ => "/home/u" } "a~b~c" {}).state.log
        = [.readFile "a/home/ub~c"] ∧
      (LoadConfig { sampleWorld with getenv := fun _ => "/home/u" } "a" {}).state.log
        = [.readFile "a"] :=
  LoadConfig_path { sampleWorld with getenv := fun _ => "/home/u" } {} ['a'] ['b', '~', 'c']
    (by decide)

end MaxReport
